import Mathlib

/-
  Shallow embedding of src/mxml-get.c (Mini-XML node get functions).

  The node structure (mxml_node_t, declared in the library headers) is a
  type tag plus a union of payloads and five structural pointers.  We embed
  the union as a record holding every member: the getters read at most one
  member per execution path, guarded by the tag, so which member is read
  depends only on the tag and the record/union distinction is unobservable.
  Structural pointers are embedded as Option MxmlNode; every accessor
  dereferences at most one hop (node->child), so any pointer configuration
  the code can observe is representable by a finite term.  C NULL is none.
  The C double payload carries no arithmetic in this module (it is only
  stored and returned), so it is embedded as Rat with 0.0 as 0.
  The whitespace out-parameter (int \x2a) is embedded by state passing:
  the argument none is a NULL pointer, some b is a pointer to a cell
  currently holding b, and the second component of the result is the final
  state of that cell.
-/

namespace Mxml

/-- Node type enumeration from the mxml headers: the IGNORE sentinel
(value -1 in C, returned by mxmlGetType for a NULL node) plus the payload
kinds used by src/mxml-get.c.  The headers are outside src/, so the closed
list of kinds follows the specification's data model (Element, Integer,
Real, Opaque, Text, Custom, plus the Ignore sentinel). -/
inductive MxmlType where
  | MXML_TYPE_IGNORE
  | MXML_TYPE_ELEMENT
  | MXML_TYPE_INTEGER
  | MXML_TYPE_OPAQUE
  | MXML_TYPE_REAL
  | MXML_TYPE_TEXT
  | MXML_TYPE_CUSTOM
deriving DecidableEq, Repr

/-- Element payload: the element name (value.element.name). -/
structure MxmlElementValue where
  name : String
deriving DecidableEq, Repr

/-- Text payload: the preceded-by-whitespace flag and the word string
(value.text.whitespace, value.text.string). -/
structure MxmlTextValue where
  whitespace : Bool
  string : String
deriving DecidableEq, Repr

/-- Custom payload: an externally owned pointer (value.custom.data);
none embeds a NULL data pointer, some h a non-null handle. -/
structure MxmlCustomValue where
  data : Option Nat
deriving DecidableEq, Repr

/-- The value union of mxml_node_t, embedded as a record of all members
(see the header comment: the getters read a member only under the matching
type tag, so the record is observation-equivalent to the union). -/
structure MxmlValue where
  element : MxmlElementValue
  integer : Int
  opaqueStr : String
  real : Rat
  text : MxmlTextValue
  custom : MxmlCustomValue
deriving DecidableEq, Repr

/-- A node of the document tree: type tag, payload union, and the
structural references child, last_child, next, parent, prev, plus the
user_data slot.  References are embedded structurally (Option MxmlNode)
since every accessor in src/mxml-get.c follows at most one hop. -/
inductive MxmlNode : Type where
  | mk (type : MxmlType) (value : MxmlValue)
      (child : Option MxmlNode) (last_child : Option MxmlNode)
      (next : Option MxmlNode) (parent : Option MxmlNode)
      (prev : Option MxmlNode) (user_data : Option Nat)

/-- Projection: node type tag. -/
def MxmlNode.type : MxmlNode → MxmlType
  | .mk t _ _ _ _ _ _ _ => t

/-- Projection: node payload union. -/
def MxmlNode.value : MxmlNode → MxmlValue
  | .mk _ v _ _ _ _ _ _ => v

/-- Projection: first child pointer (node->child). -/
def MxmlNode.child : MxmlNode → Option MxmlNode
  | .mk _ _ c _ _ _ _ _ => c

/-- Projection: last child pointer (node->last_child). -/
def MxmlNode.last_child : MxmlNode → Option MxmlNode
  | .mk _ _ _ l _ _ _ _ => l

/-- Projection: next sibling pointer (node->next). -/
def MxmlNode.next : MxmlNode → Option MxmlNode
  | .mk _ _ _ _ n _ _ _ => n

/-- Projection: parent pointer (node->parent). -/
def MxmlNode.parent : MxmlNode → Option MxmlNode
  | .mk _ _ _ _ _ p _ _ => p

/-- Projection: previous sibling pointer (node->prev). -/
def MxmlNode.prev : MxmlNode → Option MxmlNode
  | .mk _ _ _ _ _ _ p _ => p

/-- Projection: user data pointer (node->user_data). -/
def MxmlNode.user_data : MxmlNode → Option Nat
  | .mk _ _ _ _ _ _ _ u => u

/-- The 8 characters of the CDATA marker literal of src/mxml-get.c. -/
def cdataMarker : List Char := ['!', '[', 'C', 'D', 'A', 'T', 'A', '[']

/-- mxmlGetCDATA from src/mxml-get.c lines 21-30: NULL unless the node is
an element whose name starts with the 8-byte CDATA marker, else the name
past that marker.  strncmp(name, marker, 8) vanishes exactly when the
first 8 bytes of the name equal the marker (the marker has no NUL, and a
shorter name stops the comparison early with a mismatch, which the
char-list take models likewise by producing fewer than 8 characters);
name + 8 is the remaining characters. -/
def mxmlGetCDATA : Option MxmlNode → Option String
  | none => none
  | some node =>
    if node.type = .MXML_TYPE_ELEMENT ∧
        node.value.element.name.data.take 8 = cdataMarker then
      some (String.mk (node.value.element.name.data.drop 8))
    else
      none

/-- mxmlGetCustom from src/mxml-get.c lines 40-54. -/
def mxmlGetCustom : Option MxmlNode → Option Nat
  | none => none
  | some node =>
    if node.type = .MXML_TYPE_CUSTOM then
      node.value.custom.data
    else
      match node.child with
      | some c =>
        if node.type = .MXML_TYPE_ELEMENT ∧ c.type = .MXML_TYPE_CUSTOM then
          c.value.custom.data
        else
          none
      | none => none

/-- mxmlGetElement from src/mxml-get.c lines 63-72. -/
def mxmlGetElement : Option MxmlNode → Option String
  | none => none
  | some node =>
    if node.type = .MXML_TYPE_ELEMENT then
      some node.value.element.name
    else
      none

/-- mxmlGetFirstChild from src/mxml-get.c lines 82-91. -/
def mxmlGetFirstChild : Option MxmlNode → Option MxmlNode
  | none => none
  | some node =>
    if node.type = .MXML_TYPE_ELEMENT then
      node.child
    else
      none

/-- mxmlGetInteger from src/mxml-get.c lines 101-115. -/
def mxmlGetInteger : Option MxmlNode → Int
  | none => 0
  | some node =>
    if node.type = .MXML_TYPE_INTEGER then
      node.value.integer
    else
      match node.child with
      | some c =>
        if node.type = .MXML_TYPE_ELEMENT ∧ c.type = .MXML_TYPE_INTEGER then
          c.value.integer
        else
          0
      | none => 0

/-- mxmlGetLastChild from src/mxml-get.c lines 125-134. -/
def mxmlGetLastChild : Option MxmlNode → Option MxmlNode
  | none => none
  | some node =>
    if node.type = .MXML_TYPE_ELEMENT then
      node.last_child
    else
      none

/-- mxmlGetNextSibling from src/mxml-get.c lines 143-152. -/
def mxmlGetNextSibling : Option MxmlNode → Option MxmlNode
  | none => none
  | some node => node.next

/-- mxmlGetOpaque from src/mxml-get.c lines 162-176. -/
def mxmlGetOpaque : Option MxmlNode → Option String
  | none => none
  | some node =>
    if node.type = .MXML_TYPE_OPAQUE then
      some node.value.opaqueStr
    else
      match node.child with
      | some c =>
        if node.type = .MXML_TYPE_ELEMENT ∧ c.type = .MXML_TYPE_OPAQUE then
          some c.value.opaqueStr
        else
          none
      | none => none

/-- mxmlGetParent from src/mxml-get.c lines 185-194. -/
def mxmlGetParent : Option MxmlNode → Option MxmlNode
  | none => none
  | some node => node.parent

/-- mxmlGetPrevSibling from src/mxml-get.c lines 203-212. -/
def mxmlGetPrevSibling : Option MxmlNode → Option MxmlNode
  | none => none
  | some node => node.prev

/-- mxmlGetReal from src/mxml-get.c lines 221-235. -/
def mxmlGetReal : Option MxmlNode → Rat
  | none => 0
  | some node =>
    if node.type = .MXML_TYPE_REAL then
      node.value.real
    else
      match node.child with
      | some c =>
        if node.type = .MXML_TYPE_ELEMENT ∧ c.type = .MXML_TYPE_REAL then
          c.value.real
        else
          0
      | none => 0

/-- mxmlGetText from src/mxml-get.c lines 251-286: returns the string and
the final state of the whitespace cell (argument none embeds a NULL
whitespace pointer, some b a pointer to a cell holding b). -/
def mxmlGetText :
    Option MxmlNode → Option Bool → Option String × Option Bool
  | none, whitespace => (none, whitespace.map fun _ => false)
  | some node, whitespace =>
    if node.type = .MXML_TYPE_TEXT then
      (some node.value.text.string,
        whitespace.map fun _ => node.value.text.whitespace)
    else
      match node.child with
      | some c =>
        if node.type = .MXML_TYPE_ELEMENT ∧ c.type = .MXML_TYPE_TEXT then
          (some c.value.text.string,
            whitespace.map fun _ => c.value.text.whitespace)
        else
          (none, whitespace.map fun _ => false)
      | none => (none, whitespace.map fun _ => false)

/-- mxmlGetType from src/mxml-get.c lines 295-304. -/
def mxmlGetType : Option MxmlNode → MxmlType
  | none => .MXML_TYPE_IGNORE
  | some node => node.type

/-- mxmlGetUserData from src/mxml-get.c lines 311-320. -/
def mxmlGetUserData : Option MxmlNode → Option Nat
  | none => none
  | some node => node.user_data

/-- Builds a payload union with the given members, for concrete nodes. -/
def valueWith (name : String) (i : Int) (r : Rat) (oq : String)
    (w : Bool) (s : String) (d : Option Nat) : MxmlValue :=
  ⟨⟨name⟩, i, oq, r, ⟨w, s⟩, ⟨d⟩⟩

/-- A concrete Integer node with value 42. -/
def intNode42 : MxmlNode :=
  .mk .MXML_TYPE_INTEGER (valueWith "" 42 0 "" false "" none)
    none none none none none none

/-- A concrete Element node named foo whose only child is intNode42. -/
def elemFoo : MxmlNode :=
  .mk .MXML_TYPE_ELEMENT (valueWith "foo" 0 0 "" false "" none)
    (some intNode42) (some intNode42) none none none none

/-- A concrete Text node with string word and whitespace flag true. -/
def textWord : MxmlNode :=
  .mk .MXML_TYPE_TEXT (valueWith "" 0 0 "" true "word" none)
    none none none none none none

/-- A concrete Element node whose only child is the Text node textWord. -/
def elemText : MxmlNode :=
  .mk .MXML_TYPE_ELEMENT (valueWith "t" 0 0 "" false "" none)
    (some textWord) (some textWord) none none none none

/-- A concrete Element node whose only child is another Element whose own
child is intNode42: the grandchild has kind Integer but the child does
not. -/
def elemWrapInner : MxmlNode :=
  .mk .MXML_TYPE_ELEMENT (valueWith "x" 0 0 "" false "" none)
    (some intNode42) (some intNode42) none none none none

/-- The outer Element wrapping elemWrapInner. -/
def elemWrap : MxmlNode :=
  .mk .MXML_TYPE_ELEMENT (valueWith "w" 0 0 "" false "" none)
    (some elemWrapInner) (some elemWrapInner) none none none none

/-- C1: Delegation symmetry: for every Element node e whose first child
exists and has kind K, for K among Integer, Real, Opaque, Text and
Custom, the typed getter for K on e returns the same result as the typed
getter for K on the first child (one-hop delegation, identical for all
five kinds). -/
theorem mxmlGet_delegation_symmetry (e c : MxmlNode)
    (he : e.type = .MXML_TYPE_ELEMENT) (hc : e.child = some c) :
    (c.type = .MXML_TYPE_INTEGER →
      mxmlGetInteger (some e) = mxmlGetInteger (some c)) ∧
    (c.type = .MXML_TYPE_REAL →
      mxmlGetReal (some e) = mxmlGetReal (some c)) ∧
    (c.type = .MXML_TYPE_OPAQUE →
      mxmlGetOpaque (some e) = mxmlGetOpaque (some c)) ∧
    (c.type = .MXML_TYPE_TEXT → ∀ ws,
      mxmlGetText (some e) ws = mxmlGetText (some c) ws) ∧
    (c.type = .MXML_TYPE_CUSTOM →
      mxmlGetCustom (some e) = mxmlGetCustom (some c)) := by
  refine ⟨fun hk => ?_, fun hk => ?_, fun hk => ?_, fun hk ws => ?_,
    fun hk => ?_⟩ <;>
  simp [mxmlGetInteger, mxmlGetReal, mxmlGetOpaque, mxmlGetText,
    mxmlGetCustom, he, hc, hk]

/-- Witness for C1 at concrete nodes: an Element with an Integer child
and an Element with a Text child both delegate to the child. -/
theorem mxmlGet_delegation_symmetry_witness :
    elemFoo.type = .MXML_TYPE_ELEMENT ∧ elemFoo.child = some intNode42 ∧
    intNode42.type = .MXML_TYPE_INTEGER ∧
    mxmlGetInteger (some elemFoo) = mxmlGetInteger (some intNode42) ∧
    mxmlGetInteger (some elemFoo) = 42 ∧
    mxmlGetText (some elemText) (some false) =
      mxmlGetText (some textWord) (some false) :=
  ⟨rfl, rfl, rfl,
    (mxmlGet_delegation_symmetry elemFoo intNode42 rfl rfl).1 rfl,
    by decide,
    (mxmlGet_delegation_symmetry elemText textWord rfl rfl).2.2.2.1 rfl
      (some false)⟩

/-- C2: No second-level delegation: for every Element node e whose first
child exists but has kind different from K, the typed getter for K on e
returns the absent or default marker, even when the grandchild has kind
K; delegation never recurses past the immediate first child. -/
theorem mxmlGet_no_second_level (e c : MxmlNode)
    (he : e.type = .MXML_TYPE_ELEMENT) (hc : e.child = some c) :
    (c.type ≠ .MXML_TYPE_INTEGER → mxmlGetInteger (some e) = 0) ∧
    (c.type ≠ .MXML_TYPE_REAL → mxmlGetReal (some e) = 0) ∧
    (c.type ≠ .MXML_TYPE_OPAQUE → mxmlGetOpaque (some e) = none) ∧
    (c.type ≠ .MXML_TYPE_TEXT → ∀ ws,
      mxmlGetText (some e) ws = (none, ws.map fun _ => false)) ∧
    (c.type ≠ .MXML_TYPE_CUSTOM → mxmlGetCustom (some e) = none) := by
  refine ⟨fun hk => ?_, fun hk => ?_, fun hk => ?_, fun hk ws => ?_,
    fun hk => ?_⟩ <;>
  simp [mxmlGetInteger, mxmlGetReal, mxmlGetOpaque, mxmlGetText,
    mxmlGetCustom, he, hc, hk]

/-- Witness for C2 at concrete nodes: the outer Element of a two-level
chain returns 0 for the integer getter although its grandchild is an
Integer node holding 42. -/
theorem mxmlGet_no_second_level_witness :
    elemWrap.type = .MXML_TYPE_ELEMENT ∧
    elemWrap.child = some elemWrapInner ∧
    elemWrapInner.type ≠ .MXML_TYPE_INTEGER ∧
    elemWrapInner.child = some intNode42 ∧
    intNode42.type = .MXML_TYPE_INTEGER ∧
    mxmlGetInteger (some elemWrap) = 0 ∧
    mxmlGetInteger (some elemWrapInner) = 42 :=
  ⟨rfl, rfl, by decide, rfl, rfl,
    (mxmlGet_no_second_level elemWrap elemWrapInner rfl rfl).1 (by decide),
    by decide⟩

/-- A concrete Element node named with the CDATA marker and payload
hello]] (the full name has the 8-character marker first). -/
def cdataHello : MxmlNode :=
  .mk .MXML_TYPE_ELEMENT (valueWith "![CDATA[hello]]" 0 0 "" false "" none)
    none none none none none none

/-- A concrete Element node whose name is exactly the 8-character CDATA
marker with nothing after it. -/
def cdataEmpty : MxmlNode :=
  .mk .MXML_TYPE_ELEMENT (valueWith "![CDATA[" 0 0 "" false "" none)
    none none none none none none

/-- A concrete Real node with value 7/2. -/
def realNode : MxmlNode :=
  .mk .MXML_TYPE_REAL (valueWith "" 0 ((7 : Rat) / 2) "" false "" none)
    none none none none none none

/-- C3: Totality on an absent node: with a NULL node every typed getter
returns its documented default or absent marker, mxmlGetType returns the
MXML_TYPE_IGNORE sentinel, and that sentinel is distinct from every real
payload kind. -/
theorem mxmlGet_totality_absent :
    mxmlGetCDATA none = none ∧
    mxmlGetCustom none = none ∧
    mxmlGetElement none = none ∧
    mxmlGetInteger none = 0 ∧
    mxmlGetOpaque none = none ∧
    mxmlGetReal none = 0 ∧
    mxmlGetText none none = (none, none) ∧
    (∀ b : Bool, mxmlGetText none (some b) = (none, some false)) ∧
    mxmlGetType none = .MXML_TYPE_IGNORE ∧
    MxmlType.MXML_TYPE_IGNORE ≠ .MXML_TYPE_ELEMENT ∧
    MxmlType.MXML_TYPE_IGNORE ≠ .MXML_TYPE_INTEGER ∧
    MxmlType.MXML_TYPE_IGNORE ≠ .MXML_TYPE_REAL ∧
    MxmlType.MXML_TYPE_IGNORE ≠ .MXML_TYPE_OPAQUE ∧
    MxmlType.MXML_TYPE_IGNORE ≠ .MXML_TYPE_TEXT ∧
    MxmlType.MXML_TYPE_IGNORE ≠ .MXML_TYPE_CUSTOM :=
  ⟨rfl, rfl, rfl, rfl, rfl, rfl, rfl, fun _ => rfl, rfl,
    by decide, by decide, by decide, by decide, by decide, by decide⟩

/-- C4: CDATA contract: mxmlGetCDATA returns the element name with the
first 8 characters (the literal case-sensitive CDATA marker) removed
exactly when the node is a non-absent Element whose name begins with
that marker; in every other case it returns the absent marker, and the
result never depends on any child. -/
theorem mxmlGetCDATA_contract (n : MxmlNode) :
    (n.type = .MXML_TYPE_ELEMENT →
      n.value.element.name.data.take 8 = cdataMarker →
      mxmlGetCDATA (some n) =
        some (String.mk (n.value.element.name.data.drop 8))) ∧
    (n.type ≠ .MXML_TYPE_ELEMENT → mxmlGetCDATA (some n) = none) ∧
    (n.value.element.name.data.take 8 ≠ cdataMarker →
      mxmlGetCDATA (some n) = none) ∧
    mxmlGetCDATA none = none :=
  ⟨fun h1 h2 => by simp [mxmlGetCDATA, h1, h2],
    fun h1 => by simp [mxmlGetCDATA, h1],
    fun h1 => by simp [mxmlGetCDATA, h1],
    rfl⟩

/-- Witness for C4 at concrete nodes: an Element named with the CDATA
marker followed by hello]] yields hello]], and an Element named foo
yields the absent marker. -/
theorem mxmlGetCDATA_contract_witness :
    mxmlGetCDATA (some cdataHello) = some "hello]]" ∧
    mxmlGetCDATA (some elemFoo) = none :=
  ⟨((mxmlGetCDATA_contract cdataHello).1 rfl (by decide)).trans (by decide),
    (mxmlGetCDATA_contract elemFoo).2.2.1 (by decide)⟩

/-- C5: Numeric defaults: mxmlGetInteger returns exactly 0 and
mxmlGetReal returns exactly 0.0 when the node is absent or when neither
the node nor, for an Element, its first child has the matching kind;
when the node itself has the matching kind the stored payload is
returned unchanged. -/
theorem mxmlGet_numeric_defaults :
    mxmlGetInteger none = 0 ∧ mxmlGetReal none = 0 ∧
    (∀ n : MxmlNode, n.type = .MXML_TYPE_INTEGER →
      mxmlGetInteger (some n) = n.value.integer) ∧
    (∀ n : MxmlNode, n.type = .MXML_TYPE_REAL →
      mxmlGetReal (some n) = n.value.real) ∧
    (∀ n : MxmlNode, n.type ≠ .MXML_TYPE_INTEGER →
      (n.type = .MXML_TYPE_ELEMENT → ∀ c, n.child = some c →
        c.type ≠ .MXML_TYPE_INTEGER) →
      mxmlGetInteger (some n) = 0) ∧
    (∀ n : MxmlNode, n.type ≠ .MXML_TYPE_REAL →
      (n.type = .MXML_TYPE_ELEMENT → ∀ c, n.child = some c →
        c.type ≠ .MXML_TYPE_REAL) →
      mxmlGetReal (some n) = 0) := by
  refine ⟨rfl, rfl, fun n h => by simp [mxmlGetInteger, h],
    fun n h => by simp [mxmlGetReal, h], fun n h1 h2 => ?_,
    fun n h1 h2 => ?_⟩
  · rw [show mxmlGetInteger (some n) =
        (if n.type = .MXML_TYPE_INTEGER then n.value.integer else
          match n.child with
          | some c =>
            if n.type = .MXML_TYPE_ELEMENT ∧ c.type = .MXML_TYPE_INTEGER
            then c.value.integer else 0
          | none => 0) from rfl, if_neg h1]
    cases hch : n.child with
    | none => rfl
    | some c =>
      by_cases hel : n.type = .MXML_TYPE_ELEMENT
      · simp [hel, h2 hel c hch]
      · simp [hel]
  · rw [show mxmlGetReal (some n) =
        (if n.type = .MXML_TYPE_REAL then n.value.real else
          match n.child with
          | some c =>
            if n.type = .MXML_TYPE_ELEMENT ∧ c.type = .MXML_TYPE_REAL
            then c.value.real else 0
          | none => 0) from rfl, if_neg h1]
    cases hch : n.child with
    | none => rfl
    | some c =>
      by_cases hel : n.type = .MXML_TYPE_ELEMENT
      · simp [hel, h2 hel c hch]
      · simp [hel]

/-- Witness for C5 at concrete nodes: an Integer node returns its stored
42, a Real node returns its stored 7/2, a Text node returns 0 from the
integer getter, and an Element whose only child is an Integer node
returns 0.0 from the real getter. -/
theorem mxmlGet_numeric_defaults_witness :
    mxmlGetInteger (some intNode42) = 42 ∧
    mxmlGetReal (some realNode) = (7 : Rat) / 2 ∧
    mxmlGetInteger (some textWord) = 0 ∧
    mxmlGetReal (some elemFoo) = 0 := by
  refine ⟨(mxmlGet_numeric_defaults.2.2.1 intNode42 rfl).trans (by decide),
    mxmlGet_numeric_defaults.2.2.2.1 realNode rfl,
    mxmlGet_numeric_defaults.2.2.2.2.1 textWord (by decide)
      (fun hel => absurd hel (by decide)), ?_⟩
  refine mxmlGet_numeric_defaults.2.2.2.2.2 elemFoo (by decide)
    (fun _ c hc => ?_)
  have h : (some intNode42 : Option MxmlNode) = some c := hc
  have hc42 : c = intNode42 := (Option.some.inj h).symm
  subst hc42
  decide

/-- C6: The whitespace output of mxmlGetText is written to a defined
value on every path when an output cell is supplied: the node's stored
flag on a Text node, the first child's stored flag when an Element
delegates to a Text first child, and false when the node is absent or no
Text payload is found. -/
theorem mxmlGetText_whitespace_defined (n c : MxmlNode) (b : Bool) :
    mxmlGetText none (some b) = (none, some false) ∧
    (n.type = .MXML_TYPE_TEXT →
      mxmlGetText (some n) (some b) =
        (some n.value.text.string, some n.value.text.whitespace)) ∧
    (n.type = .MXML_TYPE_ELEMENT → n.child = some c →
      c.type = .MXML_TYPE_TEXT →
      mxmlGetText (some n) (some b) =
        (some c.value.text.string, some c.value.text.whitespace)) ∧
    (n.type ≠ .MXML_TYPE_TEXT →
      (n.type = .MXML_TYPE_ELEMENT → ∀ d, n.child = some d →
        d.type ≠ .MXML_TYPE_TEXT) →
      mxmlGetText (some n) (some b) = (none, some false)) := by
  refine ⟨rfl, fun h => by simp [mxmlGetText, h],
    fun h1 h2 h3 => by simp [mxmlGetText, h1, h2, h3],
    fun h1 h2 => ?_⟩
  rw [show mxmlGetText (some n) (some b) =
      (if n.type = .MXML_TYPE_TEXT then
        (some n.value.text.string,
          (some b).map fun _ => n.value.text.whitespace) else
        match n.child with
        | some d =>
          if n.type = .MXML_TYPE_ELEMENT ∧ d.type = .MXML_TYPE_TEXT then
            (some d.value.text.string,
              (some b).map fun _ => d.value.text.whitespace)
          else (none, (some b).map fun _ => false)
        | none => (none, (some b).map fun _ => false)) from rfl,
    if_neg h1]
  cases hch : n.child with
  | none => rfl
  | some d =>
    by_cases hel : n.type = .MXML_TYPE_ELEMENT
    · simp [hel, h2 hel d hch]
    · simp [hel]

/-- Witness for C6 at concrete nodes: a Text node with string word and
flag true yields that pair, and an absent node yields the absent string
with the flag written to false. -/
theorem mxmlGetText_whitespace_defined_witness :
    mxmlGetText (some textWord) (some false) = (some "word", some true) ∧
    mxmlGetText none (some true) = (none, some false) :=
  ⟨((mxmlGetText_whitespace_defined textWord textWord false).2.1
      rfl).trans (by decide),
    (mxmlGetText_whitespace_defined textWord textWord true).1⟩

/-- A concrete childless Element node with no parent. -/
def elemEmpty : MxmlNode :=
  .mk .MXML_TYPE_ELEMENT (valueWith "e2" 0 0 "" false "" none)
    none none none none none none

/-- C7: Structural getters: mxmlGetFirstChild and mxmlGetLastChild
return the absent marker for an absent node and for every non-Element
node, and return the stored first and last child references (absent for
a childless Element) on an Element; mxmlGetParent on a root node, whose
parent is absent, returns absent. -/
theorem mxmlGet_structural (n : MxmlNode) :
    mxmlGetFirstChild none = none ∧ mxmlGetLastChild none = none ∧
    (n.type ≠ .MXML_TYPE_ELEMENT →
      mxmlGetFirstChild (some n) = none ∧
      mxmlGetLastChild (some n) = none) ∧
    (n.type = .MXML_TYPE_ELEMENT →
      mxmlGetFirstChild (some n) = n.child ∧
      mxmlGetLastChild (some n) = n.last_child) ∧
    (n.parent = none → mxmlGetParent (some n) = none) :=
  ⟨rfl, rfl,
    fun h => ⟨by simp [mxmlGetFirstChild, h],
      by simp [mxmlGetLastChild, h]⟩,
    fun h => ⟨by simp [mxmlGetFirstChild, h],
      by simp [mxmlGetLastChild, h]⟩,
    fun h => by simp [mxmlGetParent, h]⟩

/-- Witness for C7 at concrete nodes: a childless root Element reports
no first child, no last child and no parent, and a Text node reports no
first child. -/
theorem mxmlGet_structural_witness :
    mxmlGetFirstChild (some elemEmpty) = none ∧
    mxmlGetLastChild (some elemEmpty) = none ∧
    mxmlGetParent (some elemEmpty) = none ∧
    mxmlGetFirstChild (some textWord) = none :=
  ⟨((mxmlGet_structural elemEmpty).2.2.2.1 rfl).1,
    ((mxmlGet_structural elemEmpty).2.2.2.1 rfl).2,
    (mxmlGet_structural elemEmpty).2.2.2.2 rfl,
    ((mxmlGet_structural textWord).2.2.1 (by decide)).1⟩

/-- C8: The element-name accessor has no delegation: mxmlGetElement
returns the node's own stored name exactly when the node is non-absent
and of kind Element, and returns the absent marker for every node of any
other kind, never consulting a child. -/
theorem mxmlGetElement_no_delegation (n : MxmlNode) :
    (n.type = .MXML_TYPE_ELEMENT →
      mxmlGetElement (some n) = some n.value.element.name) ∧
    (n.type ≠ .MXML_TYPE_ELEMENT → mxmlGetElement (some n) = none) ∧
    mxmlGetElement none = none :=
  ⟨fun h => by simp [mxmlGetElement, h],
    fun h => by simp [mxmlGetElement, h],
    rfl⟩

/-- Witness for C8 at concrete nodes: the Element named foo reports foo,
and its Integer child reports the absent marker. -/
theorem mxmlGetElement_no_delegation_witness :
    mxmlGetElement (some elemFoo) = some "foo" ∧
    mxmlGetElement (some intNode42) = none :=
  ⟨(mxmlGetElement_no_delegation elemFoo).1 rfl,
    (mxmlGetElement_no_delegation intNode42).2.1 (by decide)⟩

/-- C9: The string result of mxmlGetText does not depend on whether a
whitespace output cell is supplied, nor on its prior contents: for every
node reference the first component of the result is the same for every
whitespace argument. -/
theorem mxmlGetText_string_ws_independent (node : Option MxmlNode)
    (ws1 ws2 : Option Bool) :
    (mxmlGetText node ws1).1 = (mxmlGetText node ws2).1 := by
  cases node with
  | none => rfl
  | some n =>
    by_cases ht : n.type = .MXML_TYPE_TEXT
    · simp [mxmlGetText, ht]
    · cases hch : n.child with
      | none => simp [mxmlGetText, ht, hch]
      | some c =>
        by_cases h2 : n.type = .MXML_TYPE_ELEMENT ∧
          c.type = .MXML_TYPE_TEXT
        · simp [mxmlGetText, ht, hch, h2]
        · simp [mxmlGetText, ht, hch, h2]

/-- C10: An empty CDATA payload is representable and distinct from
absence: on every Element whose name is exactly the 8-character CDATA
marker, mxmlGetCDATA returns the empty string, not the absent marker. -/
theorem mxmlGetCDATA_empty_distinct (n : MxmlNode)
    (h1 : n.type = .MXML_TYPE_ELEMENT)
    (h2 : n.value.element.name = "![CDATA[") :
    mxmlGetCDATA (some n) = some "" ∧ mxmlGetCDATA (some n) ≠ none := by
  have key : mxmlGetCDATA (some n) = some "" := by
    rw [show mxmlGetCDATA (some n) =
        (if n.type = .MXML_TYPE_ELEMENT ∧
            n.value.element.name.data.take 8 = cdataMarker then
          some (String.mk (n.value.element.name.data.drop 8))
        else none) from rfl, h2, if_pos ⟨h1, by decide⟩]
    decide
  exact ⟨key, by simp [key]⟩

/-- Witness for C10 at a concrete node: the Element named exactly with
the CDATA marker yields the empty string and not the absent marker. -/
theorem mxmlGetCDATA_empty_distinct_witness :
    mxmlGetCDATA (some cdataEmpty) = some "" ∧
    mxmlGetCDATA (some cdataEmpty) ≠ none :=
  ⟨(mxmlGetCDATA_empty_distinct cdataEmpty rfl rfl).1,
    (mxmlGetCDATA_empty_distinct cdataEmpty rfl rfl).2⟩

end Mxml
